import Mathlib

/-!
# Shell context-menu handler

A shallow embedding of `windows/runner/context_menu_handler.cpp`: the path
escaper `EscapeFilePath`, and the three registry operations
`RegisterContextMenu`, `UnregisterContextMenu` and `IsContextMenuRegistered`
run against an explicit model of the per-user registry hive.

Wide strings are lists of UTF-16 code units. The registry is explicit state;
the outcome the operating system imposes on each registry call (success or an
error code) is read from a schedule carried by the state, and every call is
recorded in a log, so that statements about "the last operation attempted"
can be made.
-/

namespace ContextMenuHandler

/-! ## Wide strings -/

/-- One `wchar_t`: a UTF-16 code unit, kept as a natural number. -/
abbrev wchar_t := Nat

/-- A `std::wstring`: the sequence of its code units. -/
abbrev wstring := List wchar_t

/-- The wide character literal `L'c'`. -/
def Lc (c : Char) : wchar_t := c.toNat

/-- The wide string literal `L"..."` (all literals of the source are ASCII). -/
def L (s : String) : wstring := s.toList.map Lc

/-! ## Registry constants -/

/-- A Win32 status code (`LONG`). -/
abbrev LONG := Int

def ERROR_SUCCESS : LONG := 0
def ERROR_FILE_NOT_FOUND : LONG := 2
def ERROR_ACCESS_DENIED : LONG := 5
def ERROR_KEY_DELETED : LONG := 1018

def REGISTRY_KEY : wstring := L "Software\\Classes\\*\\shell\\EisenVaultUpload"
def REGISTRY_COMMAND_KEY : wstring := L "Software\\Classes\\*\\shell\\EisenVaultUpload\\command"
def REGISTRY_FOLDER_KEY : wstring := L "Software\\Classes\\Directory\\shell\\EisenVaultUpload"
def REGISTRY_FOLDER_COMMAND_KEY : wstring :=
  L "Software\\Classes\\Directory\\shell\\EisenVaultUpload\\command"

/-! ## The path escaper -/

/-- The loop of `EscapeFilePath`: one pass over the code units of `filePath`,
appending to `escaped` (initially empty). -/
def EscapeFilePath (filePath : wstring) : wstring :=
  filePath.foldl
    (fun escaped c =>
      if c = Lc '\\' then escaped ++ L "/"
      else if c = Lc ' ' then escaped ++ L "%20"
      else if c = Lc '&' then escaped ++ L "%26"
      else if c = Lc '?' then escaped ++ L "%3F"
      else if c = Lc '#' then escaped ++ L "%23"
      else escaped ++ [c])
    []

/-- The substitution table as the specification words it: the image of one
character. Used only to state that `EscapeFilePath` refines the table. -/
def specEscapeTable (c : wchar_t) : wstring :=
  if c = Lc '\\' then L "/"
  else if c = Lc ' ' then L "%20"
  else if c = Lc '&' then L "%26"
  else if c = Lc '?' then L "%3F"
  else if c = Lc '#' then L "%23"
  else [c]

/-- A code unit the escaper rewrites. -/
def isSpecial (c : wchar_t) : Prop :=
  c = Lc '\\' ∨ c = Lc ' ' ∨ c = Lc '&' ∨ c = Lc '?' ∨ c = Lc '#'

instance (c : wchar_t) : Decidable (isSpecial c) := by
  unfold isSpecial
  infer_instance

/-! ## The registry model -/

/-- A key below `HKEY_CURRENT_USER`, named by the components of its path.
Names are compared as written. -/
abbrev KeyPath := List wstring

/-- An open key handle: the key it refers to. -/
abbrev HKEY := KeyPath

/-- Split a sub-key name at its backslashes. -/
def splitKey : wstring → KeyPath
  | [] => [[]]
  | c :: cs =>
    if c = Lc '\\' then [] :: splitKey cs
    else
      match splitKey cs with
      | [] => [[c]]
      | x :: xs => (c :: x) :: xs

/-- The hive: `none` for a key that does not exist, `some v` for an existing
key whose default value is `v` (`none` when the default value is not set). -/
abbrev Registry := KeyPath → Option (Option wstring)

/-- The hive with no key at all (a fresh profile). -/
def Registry.empty : Registry := fun _ => none

/-- Create key `k` together with every missing key on the path to it; keys that
exist keep their value. -/
def Registry.create (reg : Registry) (k : KeyPath) : Registry :=
  fun p => if p.isPrefixOf k then some ((reg p).getD none) else reg p

/-- Set the default value of key `k`. -/
def Registry.setDefault (reg : Registry) (k : KeyPath) (v : wstring) : Registry :=
  fun p => if p = k then some (some v) else reg p

/-- Delete key `k` and everything below it. -/
def Registry.deleteTree (reg : Registry) (k : KeyPath) : Registry :=
  fun p => if k.isPrefixOf p then none else reg p

/-- A registry call, with the arguments that vary in the source. -/
inductive Call
  | RegCreateKeyExW (lpSubKey : wstring)
  | RegSetValueExW (hKey : HKEY) (lpData : wstring)
  | RegDeleteTreeW (lpSubKey : wstring)
  | RegOpenKeyExW (lpSubKey : wstring)
deriving DecidableEq

/-- The state the handler runs against.
* `reg`: the hive;
* `faults`: the status the system imposes on the coming registry calls, one per
  call: `ERROR_SUCCESS` lets the call proceed, any other code makes it fail
  with that code and leaves the hive as it is (an exhausted schedule imposes
  nothing);
* `log`: the registry calls made so far with their status, oldest first. -/
structure World where
  reg : Registry
  faults : List LONG
  log : List (Call × LONG)

/-- The status imposed on the next registry call. -/
def World.fault (w : World) : LONG := w.faults.headD ERROR_SUCCESS

/-- The state after a call `c` that returned `r` and left the hive as `reg`. -/
def World.after (w : World) (c : Call) (r : LONG) (reg : Registry) : World :=
  { reg := reg, faults := w.faults.tail, log := w.log ++ [(c, r)] }

/-- No failure is imposed on any coming call. -/
def World.noFaults (w : World) : Prop := ∀ f ∈ w.faults, f = ERROR_SUCCESS

instance (w : World) : Decidable w.noFaults := by
  unfold World.noFaults
  infer_instance

/-- The calls made between state `w` and a later state `w'`, oldest first. -/
def trace (w w' : World) : List (Call × LONG) :=
  w'.log.drop w.log.length

/-- The status of the last call of a trace. -/
def lastResult (t : List (Call × LONG)) : Option LONG :=
  t.getLast?.map Prod.snd

/-- Whether a logged call is a key creation. -/
def isCreate : Call × LONG → Bool
  | (Call.RegCreateKeyExW _, _) => true
  | _ => false

/-- The status of the last key creation of a trace. -/
def lastCreateResult (t : List (Call × LONG)) : Option LONG :=
  (t.filter isCreate).getLast?.map Prod.snd

/-- What a call that yields a handle returns: status, handle (meaningful on
success only), and the state. -/
structure KeyResult where
  result : LONG
  hKey : HKEY
  world : World

/-- `RegCreateKeyExW(HKEY_CURRENT_USER, lpSubKey, ..., KEY_WRITE, ..., &hKey, NULL)`. -/
def RegCreateKeyExW (lpSubKey : wstring) (w : World) : KeyResult :=
  if w.fault = ERROR_SUCCESS then
    { result := ERROR_SUCCESS, hKey := splitKey lpSubKey,
      world := w.after (Call.RegCreateKeyExW lpSubKey) ERROR_SUCCESS
        (w.reg.create (splitKey lpSubKey)) }
  else
    { result := w.fault, hKey := [],
      world := w.after (Call.RegCreateKeyExW lpSubKey) w.fault w.reg }

/-- `RegSetValueExW(hKey, NULL, 0, REG_SZ, data, size)`: set the default value
of the key behind `hKey` to the string `lpData`. -/
def RegSetValueExW (hKey : HKEY) (lpData : wstring) (w : World) : LONG × World :=
  if w.fault = ERROR_SUCCESS then
    if w.reg hKey = none then
      (ERROR_KEY_DELETED, w.after (Call.RegSetValueExW hKey lpData) ERROR_KEY_DELETED w.reg)
    else
      (ERROR_SUCCESS, w.after (Call.RegSetValueExW hKey lpData) ERROR_SUCCESS
        (w.reg.setDefault hKey lpData))
  else
    (w.fault, w.after (Call.RegSetValueExW hKey lpData) w.fault w.reg)

/-- `RegCloseKey(hKey)`: releases the handle; the hive is not touched. -/
def RegCloseKey (_hKey : HKEY) (w : World) : LONG × World :=
  (ERROR_SUCCESS, w)

/-- `RegDeleteTreeW(HKEY_CURRENT_USER, lpSubKey)`: delete the key and its
subtree; `ERROR_FILE_NOT_FOUND` when the key does not exist. -/
def RegDeleteTreeW (lpSubKey : wstring) (w : World) : LONG × World :=
  if w.fault = ERROR_SUCCESS then
    if w.reg (splitKey lpSubKey) = none then
      (ERROR_FILE_NOT_FOUND,
        w.after (Call.RegDeleteTreeW lpSubKey) ERROR_FILE_NOT_FOUND w.reg)
    else
      (ERROR_SUCCESS, w.after (Call.RegDeleteTreeW lpSubKey) ERROR_SUCCESS
        (w.reg.deleteTree (splitKey lpSubKey)))
  else
    (w.fault, w.after (Call.RegDeleteTreeW lpSubKey) w.fault w.reg)

/-- `RegOpenKeyExW(HKEY_CURRENT_USER, lpSubKey, 0, KEY_READ, &hKey)`. -/
def RegOpenKeyExW (lpSubKey : wstring) (w : World) : KeyResult :=
  if w.fault = ERROR_SUCCESS then
    if w.reg (splitKey lpSubKey) = none then
      { result := ERROR_FILE_NOT_FOUND, hKey := [],
        world := w.after (Call.RegOpenKeyExW lpSubKey) ERROR_FILE_NOT_FOUND w.reg }
    else
      { result := ERROR_SUCCESS, hKey := splitKey lpSubKey,
        world := w.after (Call.RegOpenKeyExW lpSubKey) ERROR_SUCCESS w.reg }
  else
    { result := w.fault, hKey := [],
      world := w.after (Call.RegOpenKeyExW lpSubKey) w.fault w.reg }

/-! ## The handler -/

/-- The menu label written as the default value of both menu keys. -/
def label : wstring := L "Upload to EisenVault"

/-- The local `command` of `RegisterContextMenu`, from the application path. -/
def command (appPath : wstring) : wstring :=
  L "\"" ++ appPath ++ L "\" \"eisenvault://upload?files=%1\""

/-- `RegisterContextMenu()`. `appPath` is what `GetApplicationPath()` returned.
The status of `RegSetValueExW` and of `RegCloseKey` is dropped, as in the
source; `result` is the status of the last `RegCreateKeyExW`. -/
def RegisterContextMenu (appPath : wstring) (w : World) : Bool × World :=
  -- Register for files
  let c1 := RegCreateKeyExW REGISTRY_KEY w
  let w1 : World :=
    if c1.result = ERROR_SUCCESS then
      let s1 := RegSetValueExW c1.hKey label c1.world
      let k1 := RegCloseKey c1.hKey s1.2
      -- Set command
      let c2 := RegCreateKeyExW REGISTRY_COMMAND_KEY k1.2
      if c2.result = ERROR_SUCCESS then
        let s2 := RegSetValueExW c2.hKey (command appPath) c2.world
        (RegCloseKey c2.hKey s2.2).2
      else c2.world
    else c1.world
  -- Register for folders
  let c3 := RegCreateKeyExW REGISTRY_FOLDER_KEY w1
  let r : LONG × World :=
    if c3.result = ERROR_SUCCESS then
      let s3 := RegSetValueExW c3.hKey label c3.world
      let k3 := RegCloseKey c3.hKey s3.2
      -- Set command
      let c4 := RegCreateKeyExW REGISTRY_FOLDER_COMMAND_KEY k3.2
      if c4.result = ERROR_SUCCESS then
        let s4 := RegSetValueExW c4.hKey (command appPath) c4.world
        (c4.result, (RegCloseKey c4.hKey s4.2).2)
      else (c4.result, c4.world)
    else (c3.result, c3.world)
  (decide (r.1 = ERROR_SUCCESS), r.2)

/-- One of the two blocks of `RegisterContextMenu` (menu key, then command key),
with the key names as parameters: the function is this block run for the file
keys and then for the folder keys (`RegisterContextMenu_eq_scopes`). -/
def registerScope (key commandKey cmd : wstring) (w : World) : LONG × World :=
  let c1 := RegCreateKeyExW key w
  if c1.result = ERROR_SUCCESS then
    let s1 := RegSetValueExW c1.hKey label c1.world
    let k1 := RegCloseKey c1.hKey s1.2
    let c2 := RegCreateKeyExW commandKey k1.2
    if c2.result = ERROR_SUCCESS then
      let s2 := RegSetValueExW c2.hKey cmd c2.world
      (c2.result, (RegCloseKey c2.hKey s2.2).2)
    else (c2.result, c2.world)
  else (c1.result, c1.world)

/-- `UnregisterContextMenu()`. -/
def UnregisterContextMenu (w : World) : Bool × World :=
  let d1 := RegDeleteTreeW REGISTRY_KEY w
  let d2 := RegDeleteTreeW REGISTRY_FOLDER_KEY d1.2
  (decide ((d1.1 = ERROR_SUCCESS ∨ d1.1 = ERROR_FILE_NOT_FOUND) ∧
      (d2.1 = ERROR_SUCCESS ∨ d2.1 = ERROR_FILE_NOT_FOUND)), d2.2)

/-- `IsContextMenuRegistered()`. -/
def IsContextMenuRegistered (w : World) : Bool × World :=
  let o := RegOpenKeyExW REGISTRY_KEY w
  if o.result = ERROR_SUCCESS then
    (true, (RegCloseKey o.hKey o.world).2)
  else
    (false, o.world)

/-- A state on a fresh profile (no key at all), with the given schedule. -/
def freshWorld (faults : List LONG) : World :=
  { reg := Registry.empty, faults := faults, log := [] }

/-- The hive is a tree: an existing key has all its ancestors. -/
def Registry.wellFormed (reg : Registry) : Prop :=
  ∀ p q : KeyPath, q.isPrefixOf p = true → reg p ≠ none → reg q ≠ none

/-- The hive after one block of `RegisterContextMenu` when no call fails. -/
def Registry.withScope (reg : Registry) (key commandKey cmd : wstring) : Registry :=
  (((reg.create (splitKey key)).setDefault (splitKey key) label).create
    (splitKey commandKey)).setDefault (splitKey commandKey) cmd

/-! ## The escaper: proofs -/

theorem Lc_backslash : Lc '\\' = 92 := rfl
theorem Lc_space : Lc ' ' = 32 := rfl
theorem Lc_amp : Lc '&' = 38 := rfl
theorem Lc_question : Lc '?' = 63 := rfl
theorem Lc_hash : Lc '#' = 35 := rfl
theorem L_slash : L "/" = [47] := rfl
theorem L_pct20 : L "%20" = [37, 50, 48] := rfl
theorem L_pct26 : L "%26" = [37, 50, 54] := rfl
theorem L_pct3F : L "%3F" = [37, 51, 70] := rfl
theorem L_pct23 : L "%23" = [37, 50, 51] := rfl

theorem foldl_escape (p : wstring) : ∀ acc : wstring,
    p.foldl
      (fun escaped c =>
        if c = Lc '\\' then escaped ++ L "/"
        else if c = Lc ' ' then escaped ++ L "%20"
        else if c = Lc '&' then escaped ++ L "%26"
        else if c = Lc '?' then escaped ++ L "%3F"
        else if c = Lc '#' then escaped ++ L "%23"
        else escaped ++ [c]) acc
      = acc ++ p.flatMap specEscapeTable := by
  induction p with
  | nil => intro acc; simp
  | cons c cs ih =>
    intro acc
    simp only [List.foldl_cons, List.flatMap_cons, ih, specEscapeTable]
    split_ifs <;> simp

theorem EscapeFilePath_eq_flatMap (p : wstring) :
    EscapeFilePath p = p.flatMap specEscapeTable := by
  unfold EscapeFilePath
  rw [foldl_escape]
  simp

theorem specEscapeTable_not_special (d c : Nat) (h : c ∈ specEscapeTable d) :
    ¬ isSpecial c := by
  unfold specEscapeTable at h
  simp only [Lc_backslash, Lc_space, Lc_amp, Lc_question, Lc_hash, L_slash, L_pct20, L_pct26,
    L_pct3F, L_pct23, isSpecial] at h ⊢
  split_ifs at h <;> simp at h <;>
    first
    | (rcases h with rfl | rfl | rfl <;> decide)
    | (subst h; first | decide | simp [*])

theorem EscapeFilePath_not_special (p : wstring) (c : wchar_t) (h : c ∈ EscapeFilePath p) :
    ¬ isSpecial c := by
  rw [EscapeFilePath_eq_flatMap, List.mem_flatMap] at h
  obtain ⟨d, _, hd⟩ := h
  exact specEscapeTable_not_special d c hd

theorem flatMap_table_of_not_special (q : wstring) (h : ∀ c ∈ q, ¬ isSpecial c) :
    q.flatMap specEscapeTable = q := by
  induction q with
  | nil => rfl
  | cons c cs ih =>
    have hc : ¬ isSpecial c := h c (List.mem_cons_self c cs)
    have hcs : ∀ d ∈ cs, ¬ isSpecial d := fun d hd => h d (List.mem_cons_of_mem c hd)
    simp only [isSpecial, not_or] at hc
    simp [List.flatMap_cons, ih hcs, specEscapeTable, hc]

/-- C1. `EscapeFilePath` is the single-pass substitution table: its result is
the concatenation, in input order, of the images of the characters of the
input, where backslash goes to "/", space to "%20", '&' to "%26", '?' to
"%3F", '#' to "%23" and every other character to itself; the example path of
the specification escapes to "C:/Users/a%20b%26c%3Fd%23e.txt". -/
theorem EscapeFilePath_is_table (p : wstring) :
    EscapeFilePath p = p.flatMap specEscapeTable ∧
    specEscapeTable (Lc '\\') = L "/" ∧
    specEscapeTable (Lc ' ') = L "%20" ∧
    specEscapeTable (Lc '&') = L "%26" ∧
    specEscapeTable (Lc '?') = L "%3F" ∧
    specEscapeTable (Lc '#') = L "%23" ∧
    (∀ c : wchar_t, c ≠ Lc '\\' → c ≠ Lc ' ' → c ≠ Lc '&' → c ≠ Lc '?' → c ≠ Lc '#' →
      specEscapeTable c = [c]) ∧
    EscapeFilePath (L "C:\\Users\\a b&c?d#e.txt") = L "C:/Users/a%20b%26c%3Fd%23e.txt" := by
  refine ⟨EscapeFilePath_eq_flatMap p, rfl, rfl, rfl, rfl, rfl, ?_, rfl⟩
  intro c h1 h2 h3 h4 h5
  simp [specEscapeTable, h1, h2, h3, h4, h5]

/-- The table of C1 at an ordinary character: the percent sign of an input is
copied as it is. -/
theorem EscapeFilePath_is_table_witness :
    EscapeFilePath (L "a%b") = L "a%b" ∧ specEscapeTable (Lc '%') = [Lc '%'] :=
  ⟨by rw [(EscapeFilePath_is_table (L "a%b")).1]; rfl,
   (EscapeFilePath_is_table []).2.2.2.2.2.2.1 (Lc '%')
     (by decide) (by decide) (by decide) (by decide) (by decide)⟩

/-- C2. The result of `EscapeFilePath` contains no backslash and no space,
whatever the input. -/
theorem EscapeFilePath_no_backslash_no_space (p : wstring) :
    Lc '\\' ∉ EscapeFilePath p ∧ Lc ' ' ∉ EscapeFilePath p := by
  constructor
  · intro h
    exact EscapeFilePath_not_special p _ h (Or.inl rfl)
  · intro h
    exact EscapeFilePath_not_special p _ h (Or.inr (Or.inl rfl))

/-- C10. `EscapeFilePath` is idempotent on every input: its result contains
none of backslash, space, '&', '?', '#', and the percent sign it introduces is
copied unchanged by a second pass. -/
theorem EscapeFilePath_idempotent (p : wstring) :
    EscapeFilePath (EscapeFilePath p) = EscapeFilePath p ∧
    (∀ c ∈ EscapeFilePath p,
      c ≠ Lc '\\' ∧ c ≠ Lc ' ' ∧ c ≠ Lc '&' ∧ c ≠ Lc '?' ∧ c ≠ Lc '#') ∧
    specEscapeTable (Lc '%') = [Lc '%'] := by
  refine ⟨?_, ?_, rfl⟩
  · rw [EscapeFilePath_eq_flatMap (EscapeFilePath p)]
    exact flatMap_table_of_not_special _ (EscapeFilePath_not_special p)
  · intro c hc
    have h := EscapeFilePath_not_special p c hc
    simp only [isSpecial, not_or] at h
    exact h

/-! ## The registry calls: basic facts -/

theorem RegisterContextMenu_eq_scopes (appPath : wstring) (w : World) :
    RegisterContextMenu appPath w =
      (decide ((registerScope REGISTRY_FOLDER_KEY REGISTRY_FOLDER_COMMAND_KEY (command appPath)
          (registerScope REGISTRY_KEY REGISTRY_COMMAND_KEY (command appPath) w).2).1
            = ERROR_SUCCESS),
        (registerScope REGISTRY_FOLDER_KEY REGISTRY_FOLDER_COMMAND_KEY (command appPath)
          (registerScope REGISTRY_KEY REGISTRY_COMMAND_KEY (command appPath) w).2).2) := by
  simp only [RegisterContextMenu, registerScope]
  split_ifs <;> rfl

@[simp] theorem RegCreateKeyExW_log (k : wstring) (w : World) :
    (RegCreateKeyExW k w).world.log
      = w.log ++ [(Call.RegCreateKeyExW k, (RegCreateKeyExW k w).result)] := by
  unfold RegCreateKeyExW
  split_ifs <;> rfl

@[simp] theorem RegSetValueExW_log (h : HKEY) (v : wstring) (w : World) :
    (RegSetValueExW h v w).2.log
      = w.log ++ [(Call.RegSetValueExW h v, (RegSetValueExW h v w).1)] := by
  unfold RegSetValueExW
  split_ifs <;> rfl

@[simp] theorem RegDeleteTreeW_log (k : wstring) (w : World) :
    (RegDeleteTreeW k w).2.log
      = w.log ++ [(Call.RegDeleteTreeW k, (RegDeleteTreeW k w).1)] := by
  unfold RegDeleteTreeW
  split_ifs <;> rfl

@[simp] theorem RegCloseKey_world (h : HKEY) (w : World) : (RegCloseKey h w).2 = w := rfl

@[simp] theorem RegCreateKeyExW_faults (k : wstring) (w : World) :
    (RegCreateKeyExW k w).world.faults = w.faults.tail := by
  unfold RegCreateKeyExW
  split_ifs <;> rfl

@[simp] theorem RegSetValueExW_faults (h : HKEY) (v : wstring) (w : World) :
    (RegSetValueExW h v w).2.faults = w.faults.tail := by
  unfold RegSetValueExW
  split_ifs <;> rfl

@[simp] theorem RegDeleteTreeW_faults (k : wstring) (w : World) :
    (RegDeleteTreeW k w).2.faults = w.faults.tail := by
  unfold RegDeleteTreeW
  split_ifs <;> rfl

theorem RegCreateKeyExW_result_iff (k : wstring) (w : World) :
    (RegCreateKeyExW k w).result = ERROR_SUCCESS ↔ w.fault = ERROR_SUCCESS := by
  unfold RegCreateKeyExW
  split_ifs with h <;> simp [h]

theorem RegCreateKeyExW_hKey (k : wstring) (w : World)
    (h : (RegCreateKeyExW k w).result = ERROR_SUCCESS) :
    (RegCreateKeyExW k w).hKey = splitKey k := by
  have hf := (RegCreateKeyExW_result_iff k w).1 h
  simp [RegCreateKeyExW, hf]

theorem RegCreateKeyExW_reg (k : wstring) (w : World)
    (h : (RegCreateKeyExW k w).result = ERROR_SUCCESS) :
    (RegCreateKeyExW k w).world.reg = w.reg.create (splitKey k) := by
  have hf := (RegCreateKeyExW_result_iff k w).1 h
  simp [RegCreateKeyExW, hf, World.after]

theorem key_ne_commandKey : splitKey REGISTRY_KEY ≠ splitKey REGISTRY_COMMAND_KEY := by decide
theorem key_ne_folderKey : splitKey REGISTRY_KEY ≠ splitKey REGISTRY_FOLDER_KEY := by decide
theorem key_ne_folderCommandKey :
    splitKey REGISTRY_KEY ≠ splitKey REGISTRY_FOLDER_COMMAND_KEY := by decide
theorem commandKey_ne_folderKey :
    splitKey REGISTRY_COMMAND_KEY ≠ splitKey REGISTRY_FOLDER_KEY := by decide
theorem commandKey_ne_folderCommandKey :
    splitKey REGISTRY_COMMAND_KEY ≠ splitKey REGISTRY_FOLDER_COMMAND_KEY := by decide
theorem folderKey_ne_folderCommandKey :
    splitKey REGISTRY_FOLDER_KEY ≠ splitKey REGISTRY_FOLDER_COMMAND_KEY := by decide
/-- What one block of `RegisterContextMenu` writes: every value it sets goes
either to the menu key, and is the label, or to the command key, and is `cmd`. -/
theorem registerScope_setValue (key commandKey cmd : wstring) (w : World)
    (hKey : HKEY) (data : wstring) (r : LONG)
    (h : (Call.RegSetValueExW hKey data, r) ∈ trace w (registerScope key commandKey cmd w).2) :
    (hKey = splitKey key ∧ data = label) ∨ (hKey = splitKey commandKey ∧ data = cmd) := by
  simp only [registerScope] at h
  split_ifs at h with h1 h2
  · have e1 := RegCreateKeyExW_hKey _ _ h1
    have e2 := RegCreateKeyExW_hKey _ _ h2
    simp only [RegCloseKey_world, e1] at e2
    simp [trace, e1, e2] at h
    rcases h with h | h
    · exact Or.inl ⟨h.1.1, h.1.2⟩
    · exact Or.inr ⟨h.1.1, h.1.2⟩
  · have e1 := RegCreateKeyExW_hKey _ _ h1
    simp [trace, e1] at h
    exact Or.inl ⟨h.1.1, h.1.2⟩
  · simp [trace] at h

theorem trace_trans (w w1 w2 : World) (es fs : List (Call × LONG))
    (h1 : w1.log = w.log ++ es) (h2 : w2.log = w1.log ++ fs) :
    trace w w2 = trace w w1 ++ trace w1 w2 := by
  simp [trace, h2, h1]

theorem registerScope_log (key commandKey cmd : wstring) (w : World) :
    ∃ es, (registerScope key commandKey cmd w).2.log = w.log ++ es := by
  simp only [registerScope]
  split_ifs
  · exact ⟨_, by simp; rfl⟩
  · exact ⟨_, by simp; rfl⟩
  · exact ⟨_, by simp; rfl⟩

theorem RegisterContextMenu_trace (appPath : wstring) (w : World) :
    trace w (RegisterContextMenu appPath w).2
      = trace w (registerScope REGISTRY_KEY REGISTRY_COMMAND_KEY (command appPath) w).2 ++
        trace (registerScope REGISTRY_KEY REGISTRY_COMMAND_KEY (command appPath) w).2
          (registerScope REGISTRY_FOLDER_KEY REGISTRY_FOLDER_COMMAND_KEY (command appPath)
            (registerScope REGISTRY_KEY REGISTRY_COMMAND_KEY (command appPath) w).2).2 := by
  obtain ⟨es, h1⟩ := registerScope_log REGISTRY_KEY REGISTRY_COMMAND_KEY (command appPath) w
  obtain ⟨fs, h2⟩ := registerScope_log REGISTRY_FOLDER_KEY REGISTRY_FOLDER_COMMAND_KEY
    (command appPath) (registerScope REGISTRY_KEY REGISTRY_COMMAND_KEY (command appPath) w).2
  rw [RegisterContextMenu_eq_scopes]
  exact trace_trans _ _ _ es fs h1 h2

theorem registerScope_lastCreate (key commandKey cmd : wstring) (w : World)
    (t : List (Call × LONG)) :
    lastCreateResult (t ++ trace w (registerScope key commandKey cmd w).2)
      = some (registerScope key commandKey cmd w).1 := by
  simp only [registerScope]
  split_ifs
  all_goals simp [trace, lastCreateResult, isCreate, List.filter_append, List.filter_cons]

/-- C3. The command string `RegisterContextMenu` builds from the executable
path `appPath` is a double quote, `appPath` unchanged, a double quote, one
space, and the quoted URI "eisenvault://upload?files=%1"; for the empty path it
is `"" "eisenvault://upload?files=%1"`; and this string is the value
`RegisterContextMenu` writes whenever it sets the value of a command key. -/
theorem RegisterContextMenu_command (appPath : wstring) (w : World) :
    command appPath
      = L "\"" ++ appPath ++ L "\"" ++ L " " ++ L "\"eisenvault://upload?files=%1\"" ∧
    command [] = L "\"\" \"eisenvault://upload?files=%1\"" ∧
    ∀ (hKey : HKEY) (data : wstring) (r : LONG),
      (Call.RegSetValueExW hKey data, r) ∈ trace w (RegisterContextMenu appPath w).2 →
      hKey = splitKey REGISTRY_COMMAND_KEY ∨ hKey = splitKey REGISTRY_FOLDER_COMMAND_KEY →
      data = command appPath := by
  refine ⟨?_, by decide, ?_⟩
  · have e : L "\" \"eisenvault://upload?files=%1\""
        = L "\"" ++ L " " ++ L "\"eisenvault://upload?files=%1\"" := by decide
    simp only [command, e, List.append_assoc]
  · intro hKey data r hmem hk
    rw [RegisterContextMenu_trace, List.mem_append] at hmem
    rcases hmem with hmem | hmem
    · rcases registerScope_setValue _ _ _ _ _ _ _ hmem with ⟨e, _⟩ | ⟨_, e⟩
      · rcases hk with hk | hk
        · exact absurd (e.symm.trans hk) key_ne_commandKey
        · exact absurd (e.symm.trans hk) key_ne_folderCommandKey
      · exact e
    · rcases registerScope_setValue _ _ _ _ _ _ _ hmem with ⟨e, _⟩ | ⟨_, e⟩
      · rcases hk with hk | hk
        · exact absurd (hk.symm.trans e) commandKey_ne_folderKey
        · exact absurd (e.symm.trans hk) folderKey_ne_folderCommandKey
      · exact e

/-- The command of C3 for a path with backslashes and a space, on a fresh
profile where no call fails: the value set on the file command key is the path
between quotes, unescaped, followed by the quoted URI. -/
theorem RegisterContextMenu_command_witness :
    (Call.RegSetValueExW (splitKey REGISTRY_COMMAND_KEY)
        (L "\"C:\\Program Files\\EisenVault\\app.exe\" \"eisenvault://upload?files=%1\""),
      ERROR_SUCCESS)
      ∈ trace (freshWorld [])
          (RegisterContextMenu (L "C:\\Program Files\\EisenVault\\app.exe") (freshWorld [])).2 ∧
    L "\"C:\\Program Files\\EisenVault\\app.exe\" \"eisenvault://upload?files=%1\""
      = command (L "C:\\Program Files\\EisenVault\\app.exe") :=
  ⟨by decide,
    (RegisterContextMenu_command (L "C:\\Program Files\\EisenVault\\app.exe")
      (freshWorld [])).2.2 _ _ ERROR_SUCCESS (by decide) (Or.inl rfl)⟩

/-- C5, as the code has it. `RegisterContextMenu` returns true exactly when the
last key creation (`RegCreateKeyExW`) it attempted succeeded; the status of the
value-setting calls, the final one included, has no part in the result. -/
theorem RegisterContextMenu_true_iff_last_create (appPath : wstring) (w : World) :
    (RegisterContextMenu appPath w).1 = true ↔
      lastCreateResult (trace w (RegisterContextMenu appPath w).2) = some ERROR_SUCCESS := by
  rw [RegisterContextMenu_trace, registerScope_lastCreate, RegisterContextMenu_eq_scopes]
  simp

/-! ## Runs in which no call fails -/

theorem fault_of_noFaults {w : World} (h : w.noFaults) : w.fault = ERROR_SUCCESS := by
  unfold World.noFaults at h
  unfold World.fault
  cases hf : w.faults with
  | nil => rfl
  | cons f fs =>
    rw [hf] at h
    exact h f (List.mem_cons_self f fs)

theorem noFaults_of_tail {w w' : World} (h : w.noFaults) (e : w'.faults = w.faults.tail) :
    w'.noFaults := by
  intro f hf
  rw [e] at hf
  exact h f (List.mem_of_mem_tail hf)

theorem isPrefixOf_self (k : KeyPath) : k.isPrefixOf k = true := by
  rw [List.isPrefixOf_iff_prefix]

theorem create_self (reg : Registry) (k : KeyPath) : reg.create k k ≠ none := by
  simp [Registry.create, isPrefixOf_self]

theorem RegSetValueExW_ok (hKey : HKEY) (v : wstring) (w : World)
    (hf : w.fault = ERROR_SUCCESS) (hk : w.reg hKey ≠ none) :
    (RegSetValueExW hKey v w).1 = ERROR_SUCCESS ∧
    (RegSetValueExW hKey v w).2.reg = w.reg.setDefault hKey v := by
  simp [RegSetValueExW, hf, hk, World.after]

theorem registerScope_noFaults (key commandKey cmd : wstring) (w : World) (h : w.noFaults) :
    (registerScope key commandKey cmd w).1 = ERROR_SUCCESS ∧
    (registerScope key commandKey cmd w).2.reg = w.reg.withScope key commandKey cmd ∧
    (registerScope key commandKey cmd w).2.noFaults := by
  have r1 := (RegCreateKeyExW_result_iff key w).2 (fault_of_noFaults h)
  have k1 := RegCreateKeyExW_hKey key w r1
  have g1 := RegCreateKeyExW_reg key w r1
  have n1 : (RegCreateKeyExW key w).world.noFaults := noFaults_of_tail h (by simp)
  have s1 := RegSetValueExW_ok (splitKey key) label (RegCreateKeyExW key w).world
    (fault_of_noFaults n1) (by rw [g1]; exact create_self _ _)
  have n2 : (RegSetValueExW (splitKey key) label (RegCreateKeyExW key w).world).2.noFaults :=
    noFaults_of_tail n1 (by simp)
  have r3 := (RegCreateKeyExW_result_iff commandKey
    (RegSetValueExW (splitKey key) label (RegCreateKeyExW key w).world).2).2 (fault_of_noFaults n2)
  have k3 := RegCreateKeyExW_hKey commandKey _ r3
  have g3 := RegCreateKeyExW_reg commandKey _ r3
  have n3 : (RegCreateKeyExW commandKey
      (RegSetValueExW (splitKey key) label (RegCreateKeyExW key w).world).2).world.noFaults :=
    noFaults_of_tail n2 (by simp)
  have s3 := RegSetValueExW_ok (splitKey commandKey) cmd _
    (fault_of_noFaults n3) (by rw [g3]; exact create_self _ _)
  simp only [registerScope, r1, k1, if_true, RegCloseKey_world, r3, k3]
  refine ⟨trivial, ?_, noFaults_of_tail n3 (by simp)⟩
  rw [s3.2, g3, s1.2, g1]
  rfl

theorem RegisterContextMenu_noFaults (appPath : wstring) (w : World) (h : w.noFaults) :
    (RegisterContextMenu appPath w).1 = true ∧
    (RegisterContextMenu appPath w).2.reg
      = (w.reg.withScope REGISTRY_KEY REGISTRY_COMMAND_KEY (command appPath)).withScope
          REGISTRY_FOLDER_KEY REGISTRY_FOLDER_COMMAND_KEY (command appPath) ∧
    (RegisterContextMenu appPath w).2.noFaults := by
  obtain ⟨_, g1, n1⟩ := registerScope_noFaults REGISTRY_KEY REGISTRY_COMMAND_KEY
    (command appPath) w h
  obtain ⟨r2, g2, n2⟩ := registerScope_noFaults REGISTRY_FOLDER_KEY REGISTRY_FOLDER_COMMAND_KEY
    (command appPath) _ n1
  rw [RegisterContextMenu_eq_scopes]
  refine ⟨by simp [r2], ?_, n2⟩
  simp only [g2, g1]

/-- The hive after one block, key by key. -/
theorem withScope_apply (reg : Registry) (key commandKey cmd : wstring) (p : KeyPath) :
    reg.withScope key commandKey cmd p =
      if p = splitKey commandKey then some (some cmd)
      else if p = splitKey key then some (some label)
      else if p.isPrefixOf (splitKey commandKey) = true ∨ p.isPrefixOf (splitKey key) = true
        then some ((reg p).getD none)
      else reg p := by
  simp only [Registry.withScope, Registry.create, Registry.setDefault]
  split_ifs <;> simp_all

theorem withScope_idem_gen (reg : Registry) (k ck fk fck a : wstring) :
    ((((reg.withScope k ck a).withScope fk fck a).withScope k ck a).withScope fk fck a)
      = (reg.withScope k ck a).withScope fk fck a := by
  funext p
  simp only [withScope_apply]
  split_ifs <;> simp_all

theorem withScope_idem (reg : Registry) (a : wstring) :
    ((((reg.withScope REGISTRY_KEY REGISTRY_COMMAND_KEY a).withScope
        REGISTRY_FOLDER_KEY REGISTRY_FOLDER_COMMAND_KEY a).withScope
        REGISTRY_KEY REGISTRY_COMMAND_KEY a).withScope
        REGISTRY_FOLDER_KEY REGISTRY_FOLDER_COMMAND_KEY a)
      = (reg.withScope REGISTRY_KEY REGISTRY_COMMAND_KEY a).withScope
        REGISTRY_FOLDER_KEY REGISTRY_FOLDER_COMMAND_KEY a :=
  withScope_idem_gen reg _ _ _ _ a

/-- C4. When no create or set-value call fails, `RegisterContextMenu` returns
true for every initial hive and every executable path, and afterwards the
default value of the file key and of the folder key is the label "Upload to
EisenVault", and the default value of both command subkeys is the one command
string built from the executable path. -/
theorem RegisterContextMenu_writes (appPath : wstring) (w : World) (h : w.noFaults) :
    (RegisterContextMenu appPath w).1 = true ∧
    (RegisterContextMenu appPath w).2.reg (splitKey REGISTRY_KEY)
      = some (some (L "Upload to EisenVault")) ∧
    (RegisterContextMenu appPath w).2.reg (splitKey REGISTRY_FOLDER_KEY)
      = some (some (L "Upload to EisenVault")) ∧
    (RegisterContextMenu appPath w).2.reg (splitKey REGISTRY_COMMAND_KEY)
      = some (some (command appPath)) ∧
    (RegisterContextMenu appPath w).2.reg (splitKey REGISTRY_FOLDER_COMMAND_KEY)
      = some (some (command appPath)) := by
  obtain ⟨r, g, _⟩ := RegisterContextMenu_noFaults appPath w h
  refine ⟨r, ?_, ?_, ?_, ?_⟩ <;> rw [g] <;>
    simp [withScope_apply, label, key_ne_commandKey, key_ne_folderKey, key_ne_folderCommandKey,
      commandKey_ne_folderKey, commandKey_ne_folderCommandKey, folderKey_ne_folderCommandKey,
      key_ne_commandKey.symm, key_ne_folderKey.symm, key_ne_folderCommandKey.symm,
      commandKey_ne_folderKey.symm, commandKey_ne_folderCommandKey.symm,
      folderKey_ne_folderCommandKey.symm]

/-- The run of C4 on a fresh profile: no call fails there. -/
theorem RegisterContextMenu_writes_witness :
    (freshWorld []).noFaults ∧
    (RegisterContextMenu (L "C:\\app.exe") (freshWorld [])).1 = true ∧
    (RegisterContextMenu (L "C:\\app.exe") (freshWorld [])).2.reg (splitKey REGISTRY_COMMAND_KEY)
      = some (some (L "\"C:\\app.exe\" \"eisenvault://upload?files=%1\"")) :=
  have h : (freshWorld []).noFaults := fun _ hf => absurd hf (List.not_mem_nil _)
  ⟨h, (RegisterContextMenu_writes (L "C:\\app.exe") (freshWorld []) h).1,
    (RegisterContextMenu_writes (L "C:\\app.exe") (freshWorld []) h).2.2.2.1⟩

/-- C9, as the code has it. With the executable path unchanged and no registry
call failing, two consecutive calls of `RegisterContextMenu` both return true,
the hive after the second call is the hive after the first, and the command
string stored after the second call is the one stored after the first. -/
theorem RegisterContextMenu_idempotent (appPath : wstring) (w : World) (h : w.noFaults) :
    (RegisterContextMenu appPath w).1 = true ∧
    (RegisterContextMenu appPath (RegisterContextMenu appPath w).2).1 = true ∧
    (RegisterContextMenu appPath (RegisterContextMenu appPath w).2).2.reg
      = (RegisterContextMenu appPath w).2.reg ∧
    (RegisterContextMenu appPath (RegisterContextMenu appPath w).2).2.reg
        (splitKey REGISTRY_COMMAND_KEY)
      = (RegisterContextMenu appPath w).2.reg (splitKey REGISTRY_COMMAND_KEY) ∧
    (RegisterContextMenu appPath (RegisterContextMenu appPath w).2).2.reg
        (splitKey REGISTRY_FOLDER_COMMAND_KEY)
      = (RegisterContextMenu appPath w).2.reg (splitKey REGISTRY_FOLDER_COMMAND_KEY) := by
  obtain ⟨r1, g1, n1⟩ := RegisterContextMenu_noFaults appPath w h
  obtain ⟨r2, g2, _⟩ := RegisterContextMenu_noFaults appPath _ n1
  have e : (RegisterContextMenu appPath (RegisterContextMenu appPath w).2).2.reg
      = (RegisterContextMenu appPath w).2.reg := by
    rw [g2, g1]
    exact withScope_idem w.reg (command appPath)
  exact ⟨r1, r2, e, by rw [e], by rw [e]⟩

/-- The run of C9 on a fresh profile. -/
theorem RegisterContextMenu_idempotent_witness :
    (freshWorld []).noFaults ∧
    (RegisterContextMenu (L "C:\\app.exe")
      (RegisterContextMenu (L "C:\\app.exe") (freshWorld [])).2).1 = true :=
  have h : (freshWorld []).noFaults := fun _ hf => absurd hf (List.not_mem_nil _)
  ⟨h, (RegisterContextMenu_idempotent (L "C:\\app.exe") (freshWorld []) h).2.1⟩

/-! ## Which keys exist -/

theorem create_keeps (reg : Registry) (k p : KeyPath) (h : reg p ≠ none) :
    reg.create k p ≠ none := by
  simp only [Registry.create]
  split_ifs
  · simp
  · exact h

theorem setDefault_keeps (reg : Registry) (k : KeyPath) (v : wstring) (p : KeyPath)
    (h : reg p ≠ none) : reg.setDefault k v p ≠ none := by
  simp only [Registry.setDefault]
  split_ifs
  · simp
  · exact h

theorem RegCreateKeyExW_keeps (k : wstring) (w : World) (p : KeyPath) (h : w.reg p ≠ none) :
    (RegCreateKeyExW k w).world.reg p ≠ none := by
  unfold RegCreateKeyExW
  split_ifs
  · exact create_keeps _ _ _ h
  · exact h

theorem RegSetValueExW_keeps (hKey : HKEY) (v : wstring) (w : World) (p : KeyPath)
    (h : w.reg p ≠ none) : (RegSetValueExW hKey v w).2.reg p ≠ none := by
  unfold RegSetValueExW
  split_ifs
  · exact h
  · exact setDefault_keeps _ _ _ _ h
  · exact h

theorem registerScope_keeps (key commandKey cmd : wstring) (w : World) (p : KeyPath)
    (h : w.reg p ≠ none) : (registerScope key commandKey cmd w).2.reg p ≠ none := by
  simp only [registerScope]
  split_ifs
  · exact RegSetValueExW_keeps _ _ _ _ (RegCreateKeyExW_keeps _ _ _
      (RegSetValueExW_keeps _ _ _ _ (RegCreateKeyExW_keeps _ _ _ h)))
  · exact RegCreateKeyExW_keeps _ _ _ (RegSetValueExW_keeps _ _ _ _ (RegCreateKeyExW_keeps _ _ _ h))
  · exact RegCreateKeyExW_keeps _ _ _ h

theorem registerScope_creates (key commandKey cmd : wstring) (w : World)
    (h : w.fault = ERROR_SUCCESS) :
    (registerScope key commandKey cmd w).2.reg (splitKey key) ≠ none := by
  have r1 := (RegCreateKeyExW_result_iff key w).2 h
  have e : (RegCreateKeyExW key w).world.reg (splitKey key) ≠ none := by
    rw [RegCreateKeyExW_reg key w r1]
    exact create_self _ _
  simp only [registerScope, r1, if_true]
  split_ifs
  · exact RegSetValueExW_keeps _ _ _ _ (RegCreateKeyExW_keeps _ _ _
      (RegSetValueExW_keeps _ _ _ _ e))
  · exact RegCreateKeyExW_keeps _ _ _ (RegSetValueExW_keeps _ _ _ _ e)

theorem RegisterContextMenu_key_exists (appPath : wstring) (w : World)
    (h : w.fault = ERROR_SUCCESS ∨ w.reg (splitKey REGISTRY_KEY) ≠ none) :
    (RegisterContextMenu appPath w).2.reg (splitKey REGISTRY_KEY) ≠ none := by
  rw [RegisterContextMenu_eq_scopes]
  apply registerScope_keeps
  rcases h with h | h
  · exact registerScope_creates _ _ _ _ h
  · exact registerScope_keeps _ _ _ _ _ h

/-- C6, as the code has it. If `RegisterContextMenu` returns true, and its
creation of the file key succeeded or the file key existed beforehand, then
`IsContextMenuRegistered`, called next and reading without failure, returns
true. -/
theorem IsContextMenuRegistered_after_register (appPath : wstring) (w : World)
    (_hret : (RegisterContextMenu appPath w).1 = true)
    (hkey : w.fault = ERROR_SUCCESS ∨ w.reg (splitKey REGISTRY_KEY) ≠ none)
    (hread : (RegisterContextMenu appPath w).2.fault = ERROR_SUCCESS) :
    (IsContextMenuRegistered (RegisterContextMenu appPath w).2).1 = true := by
  have e := RegisterContextMenu_key_exists appPath w hkey
  simp [IsContextMenuRegistered, RegOpenKeyExW, hread, e]

/-- The run of C6 on a fresh profile where no call fails. -/
theorem IsContextMenuRegistered_after_register_witness :
    (RegisterContextMenu (L "C:\\app.exe") (freshWorld [])).1 = true ∧
    (IsContextMenuRegistered (RegisterContextMenu (L "C:\\app.exe") (freshWorld [])).2).1
      = true :=
  ⟨by decide,
    IsContextMenuRegistered_after_register (L "C:\\app.exe") (freshWorld [])
      (by decide) (Or.inl (by decide)) (by decide)⟩

/-- C6 as stated fails: on a fresh profile, when only the creation of the file
key fails (access denied), `RegisterContextMenu` returns true, and
`IsContextMenuRegistered`, which reads without failure, returns false. -/
theorem RegisterContextMenu_true_not_registered :
    (RegisterContextMenu (L "C:\\app.exe") (freshWorld [ERROR_ACCESS_DENIED])).1 = true ∧
    (RegisterContextMenu (L "C:\\app.exe") (freshWorld [ERROR_ACCESS_DENIED])).2.fault
      = ERROR_SUCCESS ∧
    (IsContextMenuRegistered
      (RegisterContextMenu (L "C:\\app.exe") (freshWorld [ERROR_ACCESS_DENIED])).2).1
      = false := by
  decide

/-- C5 as stated fails: on a fresh profile, when every call succeeds except the
last one, the `RegSetValueExW` on the folder command key (access denied),
`RegisterContextMenu` returns true although the last registry call it made
failed. -/
theorem RegisterContextMenu_true_last_call_failed :
    (RegisterContextMenu (L "C:\\app.exe")
      (freshWorld [0, 0, 0, 0, 0, 0, 0, ERROR_ACCESS_DENIED])).1 = true ∧
    (trace (freshWorld [0, 0, 0, 0, 0, 0, 0, ERROR_ACCESS_DENIED])
      (RegisterContextMenu (L "C:\\app.exe")
        (freshWorld [0, 0, 0, 0, 0, 0, 0, ERROR_ACCESS_DENIED])).2).getLast?
      = some (Call.RegSetValueExW (splitKey REGISTRY_FOLDER_COMMAND_KEY)
          (command (L "C:\\app.exe")), ERROR_ACCESS_DENIED) ∧
    lastResult (trace (freshWorld [0, 0, 0, 0, 0, 0, 0, ERROR_ACCESS_DENIED])
      (RegisterContextMenu (L "C:\\app.exe")
        (freshWorld [0, 0, 0, 0, 0, 0, 0, ERROR_ACCESS_DENIED])).2)
      ≠ some ERROR_SUCCESS := by
  decide

/-! ## The hive stays a tree -/

theorem isPrefixOf_trans {q p k : KeyPath} (h1 : q.isPrefixOf p = true)
    (h2 : p.isPrefixOf k = true) : q.isPrefixOf k = true := by
  rw [List.isPrefixOf_iff_prefix] at *
  exact h1.trans h2

theorem wellFormed_deleteTree (reg : Registry) (k : KeyPath) (h : reg.wellFormed) :
    (reg.deleteTree k).wellFormed := by
  intro p q hqp hp
  simp only [Registry.deleteTree] at hp ⊢
  by_cases e : k.isPrefixOf p = true
  · simp [e] at hp
  · have e' : ¬ k.isPrefixOf q = true := fun hkq => e (isPrefixOf_trans hkq hqp)
    simp only [e] at hp
    simp only [e']
    exact h p q hqp hp

theorem RegDeleteTreeW_result (k : wstring) (w : World) :
    (RegDeleteTreeW k w).1 = ERROR_SUCCESS ∨ (RegDeleteTreeW k w).1 = ERROR_FILE_NOT_FOUND ∨
      (RegDeleteTreeW k w).1 = w.fault := by
  unfold RegDeleteTreeW
  split_ifs <;> simp

/-- Deletions whose status is success or not-found make `UnregisterContextMenu`
return true, and leave a schedule of the same kind. -/
theorem UnregisterContextMenu_benign (w : World)
    (h : ∀ f ∈ w.faults, f = ERROR_SUCCESS ∨ f = ERROR_FILE_NOT_FOUND) :
    (UnregisterContextMenu w).1 = true ∧
    ∀ f ∈ (UnregisterContextMenu w).2.faults, f = ERROR_SUCCESS ∨ f = ERROR_FILE_NOT_FOUND := by
  have hfault : ∀ v : World, (∀ f ∈ v.faults, f = ERROR_SUCCESS ∨ f = ERROR_FILE_NOT_FOUND) →
      v.fault = ERROR_SUCCESS ∨ v.fault = ERROR_FILE_NOT_FOUND := by
    intro v hv
    unfold World.fault
    cases hf : v.faults with
    | nil => exact Or.inl rfl
    | cons f fs =>
      rw [hf] at hv
      exact hv f (List.mem_cons_self f fs)
  have h1 : ∀ f ∈ (RegDeleteTreeW REGISTRY_KEY w).2.faults,
      f = ERROR_SUCCESS ∨ f = ERROR_FILE_NOT_FOUND := by
    intro f hf
    rw [RegDeleteTreeW_faults] at hf
    exact h f (List.mem_of_mem_tail hf)
  have r1 : (RegDeleteTreeW REGISTRY_KEY w).1 = ERROR_SUCCESS ∨
      (RegDeleteTreeW REGISTRY_KEY w).1 = ERROR_FILE_NOT_FOUND := by
    rcases RegDeleteTreeW_result REGISTRY_KEY w with e | e | e
    · exact Or.inl e
    · exact Or.inr e
    · rw [e]; exact hfault w h
  have r2 : (RegDeleteTreeW REGISTRY_FOLDER_KEY (RegDeleteTreeW REGISTRY_KEY w).2).1
        = ERROR_SUCCESS ∨
      (RegDeleteTreeW REGISTRY_FOLDER_KEY (RegDeleteTreeW REGISTRY_KEY w).2).1
        = ERROR_FILE_NOT_FOUND := by
    rcases RegDeleteTreeW_result REGISTRY_FOLDER_KEY (RegDeleteTreeW REGISTRY_KEY w).2
      with e | e | e
    · exact Or.inl e
    · exact Or.inr e
    · rw [e]; exact hfault _ h1
  refine ⟨by simp [UnregisterContextMenu, r1, r2], ?_⟩
  intro f hf
  simp only [UnregisterContextMenu, RegDeleteTreeW_faults] at hf
  exact h1 f (by rw [RegDeleteTreeW_faults]; exact List.mem_of_mem_tail hf)

/-- C7. `UnregisterContextMenu` makes exactly two calls, the deletion of the
file subtree and then of the folder subtree, and returns true exactly when each
reports success or key-not-found; so whenever deletions fail with key-not-found
only, two consecutive calls both return true (on a fresh profile too, where
neither key exists). -/
theorem UnregisterContextMenu_idempotent (w : World) :
    (∃ r1 r2 : LONG,
      trace w (UnregisterContextMenu w).2
        = [(Call.RegDeleteTreeW REGISTRY_KEY, r1), (Call.RegDeleteTreeW REGISTRY_FOLDER_KEY, r2)] ∧
      ((UnregisterContextMenu w).1 = true ↔
        (r1 = ERROR_SUCCESS ∨ r1 = ERROR_FILE_NOT_FOUND) ∧
        (r2 = ERROR_SUCCESS ∨ r2 = ERROR_FILE_NOT_FOUND))) ∧
    ((∀ f ∈ w.faults, f = ERROR_SUCCESS ∨ f = ERROR_FILE_NOT_FOUND) →
      (UnregisterContextMenu w).1 = true ∧
      (UnregisterContextMenu (UnregisterContextMenu w).2).1 = true) := by
  constructor
  · refine ⟨(RegDeleteTreeW REGISTRY_KEY w).1,
      (RegDeleteTreeW REGISTRY_FOLDER_KEY (RegDeleteTreeW REGISTRY_KEY w).2).1, ?_, ?_⟩
    · simp [trace, UnregisterContextMenu]
    · simp [UnregisterContextMenu]
  · intro h
    obtain ⟨r, h'⟩ := UnregisterContextMenu_benign w h
    exact ⟨r, (UnregisterContextMenu_benign _ h').1⟩

/-- The run of C7 on a fresh profile, where neither key exists: both calls
return true, each deletion reporting key-not-found. -/
theorem UnregisterContextMenu_idempotent_witness :
    (∀ f ∈ (freshWorld []).faults, f = ERROR_SUCCESS ∨ f = ERROR_FILE_NOT_FOUND) ∧
    (UnregisterContextMenu (freshWorld [])).1 = true ∧
    (UnregisterContextMenu (UnregisterContextMenu (freshWorld [])).2).1 = true ∧
    trace (freshWorld []) (UnregisterContextMenu (freshWorld [])).2
      = [(Call.RegDeleteTreeW REGISTRY_KEY, ERROR_FILE_NOT_FOUND),
         (Call.RegDeleteTreeW REGISTRY_FOLDER_KEY, ERROR_FILE_NOT_FOUND)] :=
  have h : ∀ f ∈ (freshWorld []).faults, f = ERROR_SUCCESS ∨ f = ERROR_FILE_NOT_FOUND :=
    fun _ hf => absurd hf (List.not_mem_nil _)
  ⟨h, ((UnregisterContextMenu_idempotent (freshWorld [])).2 h).1,
    ((UnregisterContextMenu_idempotent (freshWorld [])).2 h).2, by decide⟩

/-- C9 as stated fails. On a fresh profile, when the creation of the folder key
fails (access denied) the first call of `RegisterContextMenu` returns false;
and when only the creation of the file key fails in the first call, both calls
return true, yet no file command is stored after the first call and the
command string is stored after the second. -/
theorem RegisterContextMenu_twice_with_failures :
    (RegisterContextMenu (L "C:\\app.exe")
      (freshWorld [0, 0, 0, 0, ERROR_ACCESS_DENIED])).1 = false ∧
    (RegisterContextMenu (L "C:\\app.exe") (freshWorld [ERROR_ACCESS_DENIED])).1 = true ∧
    (RegisterContextMenu (L "C:\\app.exe")
      (RegisterContextMenu (L "C:\\app.exe") (freshWorld [ERROR_ACCESS_DENIED])).2).1 = true ∧
    (RegisterContextMenu (L "C:\\app.exe") (freshWorld [ERROR_ACCESS_DENIED])).2.reg
      (splitKey REGISTRY_COMMAND_KEY) = none ∧
    (RegisterContextMenu (L "C:\\app.exe")
      (RegisterContextMenu (L "C:\\app.exe") (freshWorld [ERROR_ACCESS_DENIED])).2).2.reg
      (splitKey REGISTRY_COMMAND_KEY) = some (some (command (L "C:\\app.exe"))) := by
  decide

end ContextMenuHandler
